import Mathlib

/-
Formal model of the medassist appointment backend.

This development shallowly embeds the agent-orchestration core of the
repository (backend/app/agent.py and backend/app/mcp_server.py) into Lean:
database rows become structures, SQLAlchemy queries become list filters,
Python dicts become association lists over a JSON-like value type, and the
wall-clock or third-party boundaries (date parsing of free text, the LLM,
the calendar and email collaborators, the JSON parser) are passed in as
explicit oracle values describing their outcome.  Machine times are
modelled as natural numbers of minutes since 1970-01-01 00:00, which is
exact for the minute-granularity datetimes the code manipulates.
-/

set_option autoImplicit false

namespace MedAssist

/-- JSON-like values, covering the shapes the Python code stores in tool
result dicts and context maps. -/
inductive JVal where
  | null
  | b (bv : Bool)
  | n (iv : Int)
  | s (sv : String)
  | arr (elems : List JVal)
  | obj (fields : List (String × JVal))

/-- Python dicts with string keys, as association lists in insertion order. -/
abbrev Dict := List (String × JVal)

/-- Dictionary lookup, first matching key wins (keys are unique in all the
states the code builds, mirroring Python dict semantics). -/
def dget : Dict → String → Option JVal
  | [], _ => none
  | (k, v) :: rest, key => if k = key then some v else dget rest key

/-- Python membership test: key in d. -/
def dhas (d : Dict) (key : String) : Bool := (dget d key).isSome

/-- Python dict assignment d[key] = v: overwrite the entry in place when
the key is present, append at the end otherwise.  Keys are unique in every
dict the embedded code builds, as in Python, so overwriting the first
occurrence is exact. -/
def dset : Dict → String → JVal → Dict
  | [], key, v => [(key, v)]
  | p :: rest, key, v => if p.1 = key then (key, v) :: rest else p :: dset rest key v

/-- Python truthiness of a JSON-like value. -/
def truthy : JVal → Bool
  | .null => false
  | .b bv => bv
  | .n iv => !(iv = 0)
  | .s sv => !(sv = "")
  | .arr elems => !elems.isEmpty
  | .obj fields => !fields.isEmpty

/-- Truthiness of an optional value, where Python None is falsy. -/
def truthyOpt : Option JVal → Bool
  | none => false
  | some v => truthy v

/-- Zero-padded two-digit rendering of a number, as Python %02d. -/
def fmt2 (n : Nat) : String := if n < 10 then "0" ++ toString n else toString n

/-- Render minutes within a day in the 12-hour clock format %I:%M %p. -/
def fmtTime12 (m : Nat) : String :=
  let h := m / 60 % 24
  let mi := m % 60
  let h12 := if h % 12 = 0 then 12 else h % 12
  let ap := if h < 12 then "AM" else "PM"
  fmt2 h12 ++ ":" ++ fmt2 mi ++ " " ++ ap

/-- Gregorian civil date from a count of days since 1970-01-01, for dates at
or after the epoch.  Returns (year, month, day). -/
def civilFromDays (z0 : Nat) : Nat × Nat × Nat :=
  let z := z0 + 719468
  let era := z / 146097
  let doe := z % 146097
  let yoe := (doe - doe / 1460 + doe / 36524 - doe / 146096) / 365
  let y := yoe + era * 400
  let doy := doe - (365 * yoe + yoe / 4 - yoe / 100)
  let mp := (5 * doy + 2) / 153
  let d := doy - (153 * mp + 2) / 5 + 1
  let m := if mp < 10 then mp + 3 else mp - 9
  (if m ≤ 2 then y + 1 else y, m, d)

/-- English month name, as Python strftime %B. -/
def monthName : Nat → String
  | 1 => "January" | 2 => "February" | 3 => "March" | 4 => "April"
  | 5 => "May" | 6 => "June" | 7 => "July" | 8 => "August"
  | 9 => "September" | 10 => "October" | 11 => "November" | 12 => "December"
  | _ => ""

/-- ISO date %Y-%m-%d from a day index since 1970-01-01. -/
def fmtYMD (dayIndex : Nat) : String :=
  let c := civilFromDays dayIndex
  toString c.1 ++ "-" ++ fmt2 c.2.1 ++ "-" ++ fmt2 c.2.2

/-- Long date %B %d, %Y from a day index. -/
def fmtLongDate (dayIndex : Nat) : String :=
  let c := civilFromDays dayIndex
  monthName c.2.1 ++ " " ++ fmt2 c.2.2 ++ ", " ++ toString c.1

/-- Datetime format %B %d, %Y at %I:%M %p from absolute minutes. -/
def fmtLongDateTime (t : Nat) : String :=
  fmtLongDate (t / 1440) ++ " at " ++ fmtTime12 (t % 1440)

/-- Datetime format %B %d at %I:%M %p from absolute minutes. -/
def fmtMonthDayTime (t : Nat) : String :=
  let c := civilFromDays (t / 1440)
  monthName c.2.1 ++ " " ++ fmt2 c.2.2 ++ " at " ++ fmtTime12 (t % 1440)

/-- Python datetime.isoformat for a whole-minute datetime. -/
def fmtIsoDateTime (t : Nat) : String :=
  fmtYMD (t / 1440) ++ "T" ++ fmt2 (t % 1440 / 60) ++ ":" ++ fmt2 (t % 60) ++ ":00"

/-- Lowercase weekday names indexed with Monday as zero, matching the days
list in mcp_server parse helpers and strftime %A lowercased. -/
def weekdayNames : List String :=
  ["monday", "tuesday", "wednesday", "thursday", "friday", "saturday", "sunday"]

/-- Lowercased weekday name of a day index since 1970-01-01, which was a
Thursday. -/
def pythonWeekdayName (dayIndex : Nat) : String :=
  weekdayNames.getD ((dayIndex + 3) % 7) ""

/-- Python str.capitalize on the day names used here. -/
def capitalizeStr (st : String) : String :=
  match st.data with
  | [] => ""
  | c :: cs => String.mk (c.toUpper :: cs)

/-- ASCII lowercasing of a character list, modelling str.lower on the ASCII
names stored in the database. -/
def lowerChars (cs : List Char) : List Char :=
  cs.map (fun c => if 'A' ≤ c ∧ c ≤ 'Z' then Char.ofNat (c.toNat + 32) else c)

/-- Does the second list start with the first. -/
def startsList : List Char → List Char → Bool
  | [], _ => true
  | _ :: _, [] => false
  | p :: ps, c :: cs => p = c && startsList ps cs

/-- Contiguous sublist test on character lists. -/
def subList (pat : List Char) : List Char → Bool
  | [] => pat.isEmpty
  | c :: cs => startsList pat (c :: cs) || subList pat cs

/-- SQL ilike with wildcards on both sides: case-insensitive substring
match, modelling Doctor.name.ilike with a pattern wrapped in percents. -/
def ilike (fieldVal pattern : String) : Bool :=
  subList (lowerChars pattern.data) (lowerChars fieldVal.data)

/-- Value of an ASCII digit character. -/
def digitVal (c : Char) : Option Nat :=
  if '0' ≤ c ∧ c ≤ '9' then some (c.toNat - '0'.toNat) else none

/-- Parse a %H:%M clock string to minutes within the day, modelling the
strptime call on the two-digit window bounds stored for each doctor.
Returns none where strptime would raise ValueError. -/
def parseHM (s : String) : Option Nat :=
  match s.data with
  | [h1, h2, c, m1, m2] =>
    if c = ':' then
      match digitVal h1, digitVal h2, digitVal m1, digitVal m2 with
      | some a, some bdig, some x, some y =>
        let hh := a * 10 + bdig
        let mm := x * 10 + y
        if hh < 24 ∧ mm < 60 then some (hh * 60 + mm) else none
      | _, _, _, _ => none
    else none
  | _ => none

/-- SQLAlchemy scalar_one_or_none: none for an empty result, the row for a
singleton result, and a raised MultipleResultsFound otherwise. -/
def scalarOneOrNone {α : Type} : List α → Except String (Option α)
  | [] => .ok none
  | [a] => .ok (some a)
  | _ => .error "Multiple rows were found when one or none was required"

/-- User roles, from models.UserRole. -/
inductive UserRole where
  | patient
  | doctor
  | admin
deriving DecidableEq, Repr

/-- Appointment statuses, from models.AppointmentStatus. -/
inductive AppointmentStatus where
  | scheduled
  | completed
  | cancelled
  | no_show
  | rescheduled
deriving DecidableEq, Repr

/-- One configured time window of a weekly availability pattern, holding
the raw %H:%M strings stored in the doctors table JSON column. -/
structure TimeWindow where
  wstart : String
  wend : String
deriving DecidableEq, Repr

/-- Doctor rows, keeping the models.Doctor columns the embedded code reads.
Primary keys are numbers standing in for UUIDs. -/
structure Doctor where
  id : Nat
  name : String
  specialty : String
  available_slots : List (String × List TimeWindow)
  consultation_duration : Nat
deriving DecidableEq, Repr

/-- User rows, keeping the models.User columns the embedded code reads. -/
structure UserRow where
  id : Nat
  email : String
  role : UserRole
deriving DecidableEq, Repr

/-- Patient rows, keeping the models.Patient columns the embedded code
reads. -/
structure PatientRow where
  id : Nat
  user_id : Nat
  name : String
deriving DecidableEq, Repr

/-- Appointment rows, keeping the models.Appointment columns the embedded
code reads and writes.  Scheduled times are absolute minutes since the
epoch. -/
structure Appointment where
  id : Nat
  doctor_id : Nat
  patient_id : Nat
  scheduled_time : Nat
  duration_minutes : Nat
  symptoms : String
  status : AppointmentStatus
  google_calendar_event_id : Option String
  confirmation_sent : Bool
deriving DecidableEq, Repr

/-- The database state visible to the MCP tools. -/
structure DB where
  doctors : List Doctor
  users : List UserRow
  patients : List PatientRow
  appointments : List Appointment
deriving DecidableEq, Repr

/-- Doctors matching a name pattern, modelling the query
select(Doctor).where(Doctor.name.ilike(percent name percent)). -/
def doctorsMatching (db : DB) (doctor_name : String) : List Doctor :=
  db.doctors.filter (fun d => ilike d.name doctor_name)

/-- Patient-role users with a given email, modelling the user query inside
schedule_appointment. -/
def patientUsersByEmail (db : DB) (email : String) : List UserRow :=
  db.users.filter (fun u => decide (u.email = email ∧ u.role = UserRole.patient))

/-- Patient profiles attached to a user id. -/
def patientsForUser (db : DB) (uid : Nat) : List PatientRow :=
  db.patients.filter (fun p => decide (p.user_id = uid))

/-- The booking-conflict query of schedule_appointment, mcp_server.py lines
390 to 398: same doctor, the exact requested timestamp, and status equal to
SCHEDULED only. -/
def conflictQuery (db : DB) (did t : Nat) : List Appointment :=
  db.appointments.filter (fun a =>
    decide (a.doctor_id = did ∧ a.scheduled_time = t ∧
      a.status = AppointmentStatus.scheduled))

/-- Appointments of a doctor on a given day that hold a slot, from the
availability query in mcp_server.py lines 290 to 302: status SCHEDULED or
RESCHEDULED, scheduled between the start and the end of the day.  The day
end is day_start plus 1439 minutes, exact for minute-granularity times
compared against datetime.max.time. -/
def bookedTimes (db : DB) (did dayStart : Nat) : List Nat :=
  (db.appointments.filter (fun a =>
    decide (a.doctor_id = did ∧ dayStart ≤ a.scheduled_time ∧
      a.scheduled_time ≤ dayStart + 1439 ∧
      (a.status = AppointmentStatus.scheduled ∨
       a.status = AppointmentStatus.rescheduled)))).map
    (fun a => a.scheduled_time)

/-- The slot-emission while loop of check_availability, mcp_server.py lines
314 to 317: emit current while current plus the consultation duration fits
inside the window, skipping starts present in the booked list, advancing by
the duration each step.  The fuel argument makes the recursion structural;
with a positive duration the initial fuel below is never exhausted, and
with duration zero the source loop would not terminate at all. -/
def genSlotsAux (dur : Nat) (booked : List Nat) : Nat → Nat → Nat → List Nat
  | 0, _, _ => []
  | fuel + 1, current, slotEnd =>
    if current + dur ≤ slotEnd then
      (if current ∈ booked then [] else [current])
        ++ genSlotsAux dur booked fuel (current + dur) slotEnd
    else []

/-- Slot starts emitted for one window. -/
def genSlots (dur : Nat) (booked : List Nat) (current slotEnd : Nat) : List Nat :=
  genSlotsAux dur booked (slotEnd + 1) current slotEnd

/-- Parse the %H:%M bounds of each window into absolute minutes, in window
order, raising ValueError on the first malformed bound as strptime does. -/
def parseWindows (dayStart : Nat) : List TimeWindow → Except String (List (Nat × Nat))
  | [] => .ok []
  | w :: rest =>
    match parseHM w.wstart, parseHM w.wend with
    | some st, some en =>
      match parseWindows dayStart rest with
      | .ok tl => .ok ((dayStart + st, dayStart + en) :: tl)
      | .error e => .error e
    | _, _ => .error "ValueError: time data does not match format %H:%M"

/-- Association-list lookup with a default, modelling dict.get(key, []). -/
def alistGetD {α : Type} (l : List (String × α)) (key : String) (dflt : α) : α :=
  match l with
  | [] => dflt
  | (k, v) :: rest => if k = key then v else alistGetD rest key dflt

/-- The check_doctor_availability tool, mcp_server.py lines 252 to 329.
The natural-language date has already been resolved by parse_date, whose
wall-clock-relative output is abstracted as the dayIndex argument, a count
of days since 1970-01-01.  Raised exceptions surface as errors, to be
converted by execute_tool. -/
def checkAvailability (db : DB) (doctor_name : String) (dayIndex : Nat) :
    Except String Dict := do
  match ← scalarOneOrNone (doctorsMatching db doctor_name) with
  | none =>
    return [("success", JVal.b false),
      ("message", JVal.s ("No doctor found matching \x27" ++ doctor_name ++ "\x27")),
      ("available_slots", JVal.arr [])]
  | some doctor =>
    let dayName := pythonWeekdayName dayIndex
    let daySlots := alistGetD doctor.available_slots dayName []
    if daySlots.isEmpty then
      return [("success", JVal.b true),
        ("doctor_name", JVal.s doctor.name),
        ("date", JVal.s (fmtYMD dayIndex)),
        ("message", JVal.s ("Dr. " ++ doctor.name ++ " is not available on " ++ dayName ++ "s")),
        ("available_slots", JVal.arr [])]
    else
      let dayStart := dayIndex * 1440
      let booked := bookedTimes db doctor.id dayStart
      let windows ← parseWindows dayStart daySlots
      let slots := windows.foldl
        (fun acc we => acc ++ genSlots doctor.consultation_duration booked we.1 we.2) []
      return [("success", JVal.b true),
        ("doctor_name", JVal.s doctor.name),
        ("doctor_id", JVal.s (toString doctor.id)),
        ("specialty", JVal.s doctor.specialty),
        ("date", JVal.s (fmtYMD dayIndex)),
        ("day", JVal.s (capitalizeStr dayName)),
        ("available_slots", JVal.arr (slots.map (fun t => JVal.s (fmtTime12 (t % 1440))))),
        ("consultation_duration", JVal.n (Int.ofNat doctor.consultation_duration)),
        ("message", JVal.s ("Dr. " ++ doctor.name ++ " has " ++ toString slots.length ++
          " available slots on " ++ fmtLongDate dayIndex))]

/-- The schedule_appointment tool, mcp_server.py lines 331 to 462.  The
appointment_datetime string has already been resolved by fromisoformat or
the parse_datetime fallback, abstracted as the apptTime argument in
absolute minutes.  The generated row id and the outcomes of the calendar
and email collaborators are oracle arguments; both collaborator calls are
wrapped in try blocks by the source, so their failures only leave the
corresponding columns unset.  Returns the tool result together with the
committed database state. -/
def scheduleAppointment (db : DB) (doctor_name patient_email : String)
    (apptTime : Nat) (symptoms : String) (newId : Nat)
    (calendarOutcome : Except String String) (emailOutcome : Except String Bool) :
    Except String Dict × DB :=
  match scalarOneOrNone (doctorsMatching db doctor_name) with
  | .error e => (.error e, db)
  | .ok none =>
    (.ok [("success", JVal.b false),
      ("message", JVal.s ("No doctor found matching \x27" ++ doctor_name ++ "\x27"))], db)
  | .ok (some doctor) =>
    match scalarOneOrNone (patientUsersByEmail db patient_email) with
    | .error e => (.error e, db)
    | .ok none =>
      (.ok [("success", JVal.b false),
        ("message", JVal.s ("No patient found with email \x27" ++ patient_email ++
          "\x27. Please register first."))], db)
    | .ok (some u) =>
      match scalarOneOrNone (patientsForUser db u.id) with
      | .error e => (.error e, db)
      | .ok none =>
        (.ok [("success", JVal.b false),
          ("message", JVal.s "Patient profile not found. Please complete your profile.")], db)
      | .ok (some patient) =>
        match scalarOneOrNone (conflictQuery db doctor.id apptTime) with
        | .error e => (.error e, db)
        | .ok (some _) =>
          (.ok [("success", JVal.b false),
            ("message", JVal.s ("Sorry, the " ++ fmtTime12 (apptTime % 1440) ++
              " slot is no longer available. Please choose another time."))], db)
        | .ok none =>
          let calId : Option String :=
            match calendarOutcome with
            | .ok cid => some cid
            | .error _ => none
          let emailSent : Bool :=
            match emailOutcome with
            | .ok _ => true
            | .error _ => false
          let created : Appointment :=
            { id := newId, doctor_id := doctor.id, patient_id := patient.id,
              scheduled_time := apptTime,
              duration_minutes := doctor.consultation_duration,
              symptoms := symptoms, status := AppointmentStatus.scheduled,
              google_calendar_event_id := calId, confirmation_sent := emailSent }
          let db2 : DB := { db with appointments := db.appointments ++ [created] }
          (.ok [("success", JVal.b true),
            ("appointment_id", JVal.s (toString newId)),
            ("message", JVal.s ("✅ Appointment successfully booked with Dr. " ++
              doctor.name ++ " on " ++ fmtLongDateTime apptTime)),
            ("details", JVal.obj [
              ("doctor", JVal.s doctor.name),
              ("specialty", JVal.s doctor.specialty),
              ("patient", JVal.s patient.name),
              ("time", JVal.s (fmtIsoDateTime apptTime)),
              ("duration", JVal.s (toString doctor.consultation_duration ++ " minutes")),
              ("calendar_event", JVal.b calId.isSome),
              ("email_sent", JVal.b emailSent)])], db2)

/-- Names imported from app.models at module scope of mcp_server.py, line
14.  The User class is not among them; schedule_appointment imports it
locally, but reschedule_appointment references the bare name User at module
scope. -/
def mcpServerModelImports : List String :=
  ["Doctor", "Patient", "Appointment", "AppointmentStatus"]

/-- The reschedule_appointment tool, mcp_server.py lines 632 to 689.  The
new_datetime string is abstracted as newTime in absolute minutes.  The
calendar update is wrapped in a try block whose except branch only prints,
so its outcome argument cannot influence the result; the patient
notification branch is not wrapped, and its reference to the unimported
name User raises a NameError after the update has been committed. -/
def rescheduleAppointment (db : DB) (appointment_id newTime : Nat)
    (notify_patient : Bool) (_calendarOutcome : Except String Unit) :
    Except String Dict × DB :=
  match scalarOneOrNone (db.appointments.filter (fun a => decide (a.id = appointment_id))) with
  | .error e => (.error e, db)
  | .ok none =>
    (.ok [("success", JVal.b false), ("message", JVal.s "Appointment not found")], db)
  | .ok (some appointment) =>
    let old_time := appointment.scheduled_time
    let db2 : DB := { db with appointments := db.appointments.map (fun a =>
      if a.id = appointment_id then
        { a with scheduled_time := newTime, status := AppointmentStatus.rescheduled }
      else a) }
    let successResult : Except String Dict × DB :=
      (.ok [("success", JVal.b true),
        ("message", JVal.s ("Appointment rescheduled from " ++ fmtMonthDayTime old_time ++
          " to " ++ fmtMonthDayTime newTime)),
        ("new_time", JVal.s (fmtIsoDateTime newTime))], db2)
    if notify_patient then
      match db2.patients.find? (fun p => p.id == appointment.patient_id) with
      | some patient =>
        if mcpServerModelImports.contains "User" then
          match db2.users.find? (fun us => us.id == patient.user_id) with
          | some _ => successResult
          | none => successResult
        else
          (.error "NameError: name \x27User\x27 is not defined", db2)
      | none => successResult
    else successResult

/-- The eight registered tool names, the keys of tool_map in
MCPTools.execute_tool, mcp_server.py lines 232 to 241. -/
def registeredToolNames : List String :=
  ["check_doctor_availability", "schedule_appointment", "get_patient_statistics",
   "send_doctor_report", "reschedule_appointment", "get_all_doctors",
   "get_appointment_details", "cancel_appointment"]

/-- MCPTools.execute_tool, mcp_server.py lines 230 to 250.  The behavior of
the dispatched handler, including any exception it raises and any TypeError
from unpacking the argument dict, is abstracted as the handler argument;
the executor converts an unknown name or a raised exception into an error
dict and, being a total function into Dict, never itself raises. -/
def executeTool (handler : String → Dict → Except String Dict)
    (tool_name : String) (arguments : Dict) : Dict :=
  if (registeredToolNames.contains tool_name) = false then
    [("error", JVal.s ("Unknown tool: " ++ tool_name))]
  else
    match handler tool_name arguments with
    | .ok result => result
    | .error e => [("error", JVal.s e)]

/-- The tools that receive the doctor id of the calling doctor, agent.py
line 192. -/
def doctorScopedTools : List String :=
  ["get_patient_statistics", "send_doctor_report", "get_appointment_details"]

/-- Doctor id injection, agent.py lines 190 to 194: only when the role is
doctor, the arguments lack doctor_id, the tool is doctor scoped and the
context holds a doctor_id. -/
def injectDoctorId (userRole toolName : String) (context arguments : Dict) : Dict :=
  if userRole = "doctor" ∧ dhas arguments "doctor_id" = false then
    if doctorScopedTools.contains toolName then
      if dhas context "doctor_id" then
        dset arguments "doctor_id" ((dget context "doctor_id").getD JVal.null)
      else arguments
    else arguments
  else arguments

/-- Patient email injection, agent.py lines 196 to 201: only for the
schedule tool when the caller is a patient and the arguments lack the
email; the user row lookup is abstracted as the optional email. -/
def injectPatientEmail (userRole toolName : String) (userEmail : Option String)
    (arguments : Dict) : Dict :=
  if userRole = "patient" ∧ dhas arguments "patient_email" = false then
    if toolName = "schedule_appointment" then
      match userEmail with
      | some e => dset arguments "patient_email" (JVal.s e)
      | none => arguments
    else arguments
  else arguments

/-- Doctor name injection from context, agent.py lines 212 to 215, applied
on the branch for tools other than the availability check. -/
def injectDoctorName (toolName : String) (context arguments : Dict) : Dict :=
  if toolName = "schedule_appointment" then
    if dhas arguments "doctor_name" = false ∧ dhas context "last_doctor_name" then
      dset arguments "doctor_name" ((dget context "last_doctor_name").getD JVal.null)
    else arguments
  else arguments

/-- The argument dict actually passed to execute_tool for one tool call,
after parsing (agent.py lines 185 to 188, a malformed payload giving an
empty dict) and the three contextual injections.  rawParsed is the outcome
of json.loads on the raw payload. -/
def executedArguments (userRole : String) (userEmail : Option String)
    (context : Dict) (toolName : String) (rawParsed : Option Dict) : Dict :=
  let arguments := rawParsed.getD []
  let arguments := injectDoctorId userRole toolName context arguments
  let arguments := injectPatientEmail userRole toolName userEmail arguments
  if toolName = "check_doctor_availability" then arguments
  else injectDoctorName toolName context arguments

/-- Context capture after an availability call, agent.py lines 204 to 210:
when the result is truthy on success and on doctor_id, write last_doctor_id,
last_doctor_name, last_date and available_slots into the context. -/
def captureAvailabilityContext (context result : Dict) : Dict :=
  if truthyOpt (dget result "success") && truthyOpt (dget result "doctor_id") then
    let c := dset context "last_doctor_id" ((dget result "doctor_id").getD JVal.null)
    let c := dset c "last_doctor_name" ((dget result "doctor_name").getD JVal.null)
    let c := dset c "last_date" ((dget result "date").getD JVal.null)
    dset c "available_slots" ((dget result "available_slots").getD (JVal.arr []))
  else context

/-- Processing of one tool call inside the loop body, agent.py lines 181 to
224: parse and inject arguments, execute through the executor, and update
the session context only on the availability branch.  Returns the tool
result and the context after the call. -/
def handleToolCall (handler : String → Dict → Except String Dict)
    (userRole : String) (userEmail : Option String) (context : Dict)
    (toolName : String) (rawParsed : Option Dict) : Dict × Dict :=
  let result := executeTool handler toolName
    (executedArguments userRole userEmail context toolName rawParsed)
  if toolName = "check_doctor_availability" then
    (result, captureAvailabilityContext context result)
  else
    (result, context)

/-- One tool call requested by the model: the id, function name and raw
JSON argument text. -/
structure ToolCall where
  callId : String
  name : String
  rawArguments : String
deriving DecidableEq, Repr

/-- One model response: optional content and the requested tool calls,
where an absent or empty list is falsy for the while condition on line
177 of agent.py. -/
structure ModelResponse where
  content : Option String
  tool_calls : List ToolCall
deriving DecidableEq, Repr

/-- The fixed apology used when the final content is missing or empty,
agent.py line 261. -/
def fallbackResponse : String :=
  "I apologize, but I couldn\x27t generate a response. Please try again."

/-- Python x or y on an optional string: the string when present and
nonempty, the default otherwise. -/
def pythonOrStr (c : Option String) (dflt : String) : String :=
  match c with
  | none => dflt
  | some st => if st = "" then dflt else st

/-- The tool-call while loop of process_message, agent.py lines 167 to 261,
projected onto round structure: the model is an oracle giving the response
of each round, the loop exits exactly when a response carries no tool
calls, and every requested tool name is appended to tools_used in call
order.  The source has no iteration cap, so the recursion is metered by a
fuel argument counting model responses the loop is allowed to consume:
none means the loop was still running when the fuel ran out, and a loop
that returns none for every fuel never terminates.  The returned pair is
the cumulative tools_used list and the final response text. -/
def agentLoop (oracle : Nat → ModelResponse) :
    Nat → Nat → List String → Option (List String × String)
  | 0, _, _ => none
  | fuel + 1, round, tools_used =>
    let resp := oracle round
    if resp.tool_calls.isEmpty then
      some (tools_used, pythonOrStr resp.content fallbackResponse)
    else
      agentLoop oracle fuel (round + 1) (tools_used ++ resp.tool_calls.map ToolCall.name)

/-- One stored turn of a conversation row: role and content plus the
auxiliary metadata process_message records, agent.py lines 148 to 152 and
264 to 270. -/
structure StoredTurn where
  role : String
  content : String
  timestamp : Option String
  tools_used : Option (List String)
deriving DecidableEq, Repr

/-- One message sent to the model: role and content only. -/
structure ChatMessage where
  role : String
  content : String
deriving DecidableEq, Repr

/-- The base system prompt text, agent.py lines 46 to 58, up to the point
where the wall-clock date and time string is appended. -/
def basePromptText : String :=
  "You are a helpful medical appointment assistant for a healthcare clinic. \nYou help patients book appointments with doctors and help doctors manage their schedules and view reports.\n\nIMPORTANT GUIDELINES:\n1. Be professional, friendly, and empathetic\n2. Always confirm important details before taking actions\n3. Use the provided tools to check availability, book appointments, and retrieve information\n4. Maintain context from previous messages in the conversation\n5. If you\x27re unsure about something, ask for clarification\n6. Format responses in a clear, easy-to-read manner\n7. Include relevant details like appointment times, doctor names, and confirmation numbers\n\nCURRENT DATE AND TIME: "

/-- The patient role prompt, agent.py lines 61 to 80. -/
def patientRolePrompt : String :=
  "\n\nPATIENT CONTEXT:\nYou are helping a patient. They can:\n- Ask about doctor availability\n- Book, reschedule, or cancel appointments\n- Check their upcoming appointments\n- Ask questions about their scheduled visits\n\nWhen booking appointments:\n1. First check doctor availability using check_doctor_availability\n2. Present available slots clearly\n3. Confirm the chosen slot before booking\n4. Use schedule_appointment to complete the booking\n5. Confirm success and provide appointment details\n\nFor multi-turn conversations, remember:\n- If patient has already asked about a specific doctor, don\x27t ask again\n- If they say \"book the 3 PM slot\", use context to know which doctor\n- Maintain context about dates and doctors discussed"

/-- The doctor role prompt, agent.py lines 83 to 98. -/
def doctorRolePrompt : String :=
  "\n\nDOCTOR CONTEXT:\nYou are helping a doctor manage their practice. They can:\n- View patient statistics (yesterday\x27s visits, today\x27s appointments, etc.)\n- Get summary reports about specific symptoms or conditions\n- Send reports via Slack or other channels\n- View their schedule\n\nWhen generating reports:\n1. Use get_patient_statistics to gather data\n2. Format the report in a professional, scannable format\n3. Offer to send the report via their preferred channel\n4. Use send_doctor_report when they want to receive it\n\nFor queries like \"How many patients with fever?\", use the by_symptom query type."

/-- The system prompt builder get_system_prompt, agent.py lines 43 to 112.
The wall-clock strftime is abstracted as nowStr and the json.dumps
serialization of the user context as the dumps argument; an absent or
empty context contributes nothing, matching Python truthiness. -/
def getSystemPrompt (dumps : Dict → String) (nowStr user_role : String)
    (user_context : Option Dict) : String :=
  let role_prompt :=
    if user_role = "patient" then patientRolePrompt
    else if user_role = "doctor" then doctorRolePrompt
    else ""
  let context_prompt :=
    match user_context with
    | some ctx =>
      if ctx.isEmpty then ""
      else "\n\nCONVERSATION CONTEXT:\n" ++ dumps ctx ++
        "\n\nUse this context to understand references to previous messages."
    | none => ""
  basePromptText ++ nowStr ++ role_prompt ++ context_prompt

/-- The message assembler build_messages, agent.py lines 332 to 361: the
system instruction, then the last ten stored turns keeping role and
content only, then the new user message.  The Python slice of the last ten
elements is drop of length minus ten, which is the whole list when ten or
fewer turns are stored. -/
def buildMessages (dumps : Dict → String) (nowStr : String)
    (conversationMessages : List StoredTurn) (user_message user_role : String)
    (user_context : Option Dict) : List ChatMessage :=
  let messages := [ChatMessage.mk "system" (getSystemPrompt dumps nowStr user_role user_context)]
  let history := conversationMessages.drop (conversationMessages.length - 10)
  let messages := messages ++ history.map (fun m => ChatMessage.mk m.role m.content)
  messages ++ [ChatMessage.mk "user" user_message]

/-- Conversation rows, keeping the models.ConversationHistory columns that
clear_conversation reads and writes. -/
structure ConversationRow where
  user_id : Nat
  session_id : String
  is_active : Bool
deriving DecidableEq, Repr

/-- The row query of clear_conversation, agent.py lines 449 to 456, which
matches on user and session id and does not restrict the active flag. -/
def conversationQuery (rows : List ConversationRow) (uid : Nat) (sid : String) :
    List ConversationRow :=
  rows.filter (fun r => decide (r.user_id = uid ∧ r.session_id = sid))

/-- The committed effect of clear_conversation on one row: the matched row
has its is_active flag set to false, every other row is untouched. -/
def deactivateRow (uid : Nat) (sid : String) (r : ConversationRow) : ConversationRow :=
  if r.user_id = uid ∧ r.session_id = sid then { r with is_active := false } else r

/-- DoctorAssistantAgent.clear_conversation, agent.py lines 442 to 464:
fetch the single row for the pair, flip is_active to false and return true
when it exists, return false otherwise.  scalar_one_or_none raises when
several rows share the pair. -/
def clearConversation (rows : List ConversationRow) (uid : Nat) (sid : String) :
    Except String (Bool × List ConversationRow) :=
  match scalarOneOrNone (conversationQuery rows uid sid) with
  | .error e => .error e
  | .ok (some _) => .ok (true, rows.map (deactivateRow uid sid))
  | .ok none => .ok (false, rows)

/-- Projection of a tool result out of the exception monad, giving the
empty dict on a raised exception; used only to state observations. -/
def okDict : Except String Dict → Dict
  | .ok d => d
  | .error _ => []

/-
Concrete fixtures used by the counterexamples and witnesses below.
-/

/-- A doctor available on Mondays from 09:00 to 12:00 with 30-minute
consultations. -/
def docSmith : Doctor :=
  { id := 1, name := "Alice Smith", specialty := "cardiology",
    available_slots := [("monday", [{ wstart := "09:00", wend := "12:00" }])],
    consultation_duration := 30 }

/-- A database with only the doctor, no bookings. -/
def dbAvail : DB := { doctors := [docSmith], users := [], patients := [], appointments := [] }

/-- A registered patient user. -/
def userPat : UserRow := { id := 10, email := "pat@example.com", role := UserRole.patient }

/-- The patient profile of that user. -/
def patPat : PatientRow := { id := 20, user_id := 10, name := "Pat Doe" }

/-- An appointment in status rescheduled holding the 09:00 slot of day
index 4, which is Monday 1970-01-05; minute 6300 is four days plus nine
hours after the epoch. -/
def apptRescheduled : Appointment :=
  { id := 5, doctor_id := 1, patient_id := 20, scheduled_time := 6300,
    duration_minutes := 30, symptoms := "", status := AppointmentStatus.rescheduled,
    google_calendar_event_id := none, confirmation_sent := false }

/-- A database in which the 09:00 slot is held by a rescheduled
appointment. -/
def dbConflict : DB :=
  { doctors := [docSmith], users := [userPat], patients := [patPat],
    appointments := [apptRescheduled] }

/-- A scheduled appointment to be rescheduled. -/
def apptToMove : Appointment :=
  { id := 7, doctor_id := 1, patient_id := 20, scheduled_time := 6300,
    duration_minutes := 30, symptoms := "checkup", status := AppointmentStatus.scheduled,
    google_calendar_event_id := none, confirmation_sent := false }

/-- A database holding that appointment together with its patient. -/
def dbResched : DB :=
  { doctors := [docSmith], users := [userPat], patients := [patPat],
    appointments := [apptToMove] }

/-- The appointment above after the committed reschedule to 09:30. -/
def apptMoved : Appointment :=
  { apptToMove with scheduled_time := 6330, status := AppointmentStatus.rescheduled }

/-- A successful availability result carrying a doctor id, in the shape
check_doctor_availability returns. -/
def availResultCapture : Dict :=
  [("success", JVal.b true), ("doctor_name", JVal.s "Alice Smith"),
   ("doctor_id", JVal.s "1"), ("date", JVal.s "1970-01-05"),
   ("available_slots", JVal.arr [JVal.s "09:00 AM"])]

/-- A successful availability result without a doctor id, the shape
returned when the doctor has no window on that weekday. -/
def availResultNoId : Dict :=
  [("success", JVal.b true), ("doctor_name", JVal.s "Alice Smith"),
   ("date", JVal.s "1970-01-04"),
   ("message", JVal.s "Dr. Alice Smith is not available on sundays"),
   ("available_slots", JVal.arr [])]

/-- Two conversation rows sharing one user and session pair, the state
left behind by clearing a session and then sending a new message on the
same session id. -/
def convRowsDup : List ConversationRow :=
  [{ user_id := 1, session_id := "s1", is_active := false },
   { user_id := 1, session_id := "s1", is_active := true }]

/-- A single active conversation row. -/
def convRowSingle : List ConversationRow :=
  [{ user_id := 1, session_id := "s1", is_active := true }]

/-- A model oracle that never requests tools. -/
def oracleNoTools : Nat → ModelResponse := fun _ =>
  { content := some "All done", tool_calls := [] }

/-- A model oracle that requests one availability check and then stops. -/
def oracleOneTool : Nat → ModelResponse := fun round =>
  if round = 0 then
    { content := none,
      tool_calls := [{ callId := "call-1", name := "check_doctor_availability",
                       rawArguments := "" }] }
  else { content := some "Here are the slots", tool_calls := [] }

/-- A model oracle that requests a tool on every round. -/
def oracleAlwaysTools : Nat → ModelResponse := fun _ =>
  { content := none,
    tool_calls := [{ callId := "call-x", name := "get_all_doctors", rawArguments := "" }] }

/-- Fifteen stored turns, for the windowing witness. -/
def fifteenTurns : List StoredTurn :=
  (List.range 15).map (fun i =>
    { role := "user", content := "m" ++ toString i,
      timestamp := some "1970-01-05T09:00:00", tools_used := none })

/-
Helper lemmas on the dictionary operations shared by several of the
theorems below.
-/

/-- Looking up the key just assigned returns the assigned value. -/
theorem dget_dset_self (d : Dict) (key : String) (v : JVal) :
    dget (dset d key v) key = some v := by
  induction d with
  | nil => simp [dset, dget]
  | cons p rest ih =>
    by_cases hk : p.1 = key
    · simp [dset, hk, dget]
    · simp [dset, hk, dget, ih]

/-- Assigning one key leaves the lookup of every other key unchanged. -/
theorem dget_dset_other (d : Dict) (key key2 : String) (v : JVal)
    (hne : key2 ≠ key) :
    dget (dset d key v) key2 = dget d key2 := by
  have hne2 : ¬(key = key2) := fun hc => hne hc.symm
  induction d with
  | nil => simp [dset, dget, hne2]
  | cons p rest ih =>
    by_cases hk : p.1 = key
    · simp [dset, hk, dget, hne2]
    · rw [dset]
      simp only [hk, if_false, dget]
      by_cases hk2 : p.1 = key2
      · simp [hk2]
      · simp [hk2, ih]

/-- Every slot start the emission loop produces lies on a stride of the
consultation duration from the window start, fits with its duration inside
the window, and is not an already-booked time. -/
theorem genSlotsAux_sound (dur : Nat) (booked : List Nat) :
    ∀ (fuel current slotEnd t : Nat),
      t ∈ genSlotsAux dur booked fuel current slotEnd →
      (∃ k, t = current + k * dur) ∧ t + dur ≤ slotEnd ∧ t ∉ booked := by
  intro fuel
  induction fuel with
  | zero => intro current slotEnd t ht; simp [genSlotsAux] at ht
  | succ n ih =>
    intro current slotEnd t ht
    rw [genSlotsAux] at ht
    by_cases h1 : current + dur ≤ slotEnd
    · rw [if_pos h1] at ht
      rcases List.mem_append.mp ht with h2 | h2
      · by_cases hb : current ∈ booked
        · rw [if_pos hb] at h2
          cases h2
        · rw [if_neg hb] at h2
          have ht2 : t = current := by simpa using h2
          subst ht2
          exact ⟨⟨0, by simp⟩, h1, hb⟩
      · obtain ⟨⟨k, hk⟩, hle, hnb⟩ := ih (current + dur) slotEnd t h2
        exact ⟨⟨k + 1, by rw [hk]; ring⟩, hle, hnb⟩
    · rw [if_neg h1] at ht
      cases ht

/-- Deactivation of a row does not change its key columns, so the query of
clear_conversation selects the same rows before and after the update. -/
theorem conversationQuery_map_deactivate (rows : List ConversationRow)
    (uid : Nat) (sid : String) :
    conversationQuery (rows.map (deactivateRow uid sid)) uid sid
      = (conversationQuery rows uid sid).map (deactivateRow uid sid) := by
  induction rows with
  | nil => rfl
  | cons r rest ih =>
    by_cases hm : r.user_id = uid ∧ r.session_id = sid
    · have hd : deactivateRow uid sid r = { r with is_active := false } := by
        simp [deactivateRow, hm]
      simp [conversationQuery, List.filter, hd, hm] at ih ⊢
      exact ih
    · have hd : deactivateRow uid sid r = r := by
        simp [deactivateRow, hm]
      simp [conversationQuery, List.filter, hd, hm] at ih ⊢
      exact ih

/-- Deactivating a row twice equals deactivating it once. -/
theorem deactivateRow_idem (uid : Nat) (sid : String) (r : ConversationRow) :
    deactivateRow uid sid (deactivateRow uid sid r) = deactivateRow uid sid r := by
  by_cases hm : r.user_id = uid ∧ r.session_id = sid
  · simp [deactivateRow, hm]
  · simp [deactivateRow, hm]

/-- Deactivating every row of a list twice equals doing it once. -/
theorem map_deactivate_idem (rows : List ConversationRow) (uid : Nat) (sid : String) :
    (rows.map (deactivateRow uid sid)).map (deactivateRow uid sid)
      = rows.map (deactivateRow uid sid) := by
  induction rows with
  | nil => rfl
  | cons r rest ih =>
    simp only [List.map, deactivateRow_idem, ih]

/-- C1 counterexample: with a rescheduled appointment of the resolved
doctor holding the exact requested timestamp, schedule_appointment does
not soft-fail: it succeeds and appends a second appointment record at
that timestamp, because the conflict query filters on status scheduled
only. -/
theorem c1_rescheduled_slot_not_blocked :
    dget (okDict (scheduleAppointment dbConflict "Smith" "pat@example.com" 6300 "" 99
        (Except.error "calendar down") (Except.ok true)).1) "success" = some (JVal.b true)
    ∧ (scheduleAppointment dbConflict "Smith" "pat@example.com" 6300 "" 99
        (Except.error "calendar down") (Except.ok true)).2.appointments.length = 2
    ∧ apptRescheduled.doctor_id = docSmith.id
    ∧ apptRescheduled.scheduled_time = 6300
    ∧ apptRescheduled.status = AppointmentStatus.rescheduled
    ∧ dbConflict.appointments = [apptRescheduled] :=
  ⟨rfl, rfl, rfl, rfl, rfl, rfl⟩

/-- C7 counterexample: a successful availability result updates the
context key available_slots, not last_available_slots; and a successful
result lacking a doctor_id updates nothing at all. -/
theorem c7_available_slots_key_name :
    dget (captureAvailabilityContext [] availResultCapture) "last_available_slots" = none
    ∧ dget (captureAvailabilityContext [] availResultCapture) "available_slots"
        = some (JVal.arr [JVal.s "09:00 AM"])
    ∧ truthyOpt (dget availResultNoId "success") = true
    ∧ captureAvailabilityContext [] availResultNoId = [] :=
  ⟨rfl, rfl, rfl, rfl⟩

/-- C10 counterexample: when two conversation rows share the pair, which
the code can create by clearing a session and then reusing its session id,
clear_conversation raises MultipleResultsFound instead of returning true,
although a row for the pair exists. -/
theorem c10_duplicate_rows_raise :
    clearConversation convRowsDup 1 "s1"
      = .error "Multiple rows were found when one or none was required" := rfl

/-- C8: rescheduling an existing appointment commits the new timestamp and
the rescheduled status, but the patient-notification branch then raises a
NameError because mcp_server.py never imports User at module scope and the
branch is not wrapped in a try block; the tool therefore surfaces an
exception instead of the success result, while the committed update stays
in place. -/
theorem c8_reschedule_notification_raises :
    (rescheduleAppointment dbResched 7 6330 true (Except.ok ())).1
      = .error "NameError: name \x27User\x27 is not defined"
    ∧ (rescheduleAppointment dbResched 7 6330 true (Except.ok ())).2.appointments
      = [apptMoved]
    ∧ (mcpServerModelImports.contains "User") = false :=
  ⟨rfl, rfl, rfl⟩

/-- C9: a tool-call payload that json.loads rejects is degraded to the
empty argument dict: processing the call behaves exactly as if the model
had sent an empty argument object, and the tool is still executed through
the executor on the empty dict plus the contextual injections, with no
error raised by the parse step itself. -/
theorem c9_malformed_arguments_degrade (handler : String → Dict → Except String Dict)
    (userRole : String) (userEmail : Option String) (context : Dict) (toolName : String) :
    handleToolCall handler userRole userEmail context toolName none
      = handleToolCall handler userRole userEmail context toolName (some [])
    ∧ (handleToolCall handler userRole userEmail context toolName none).1
      = executeTool handler toolName
          (executedArguments userRole userEmail context toolName none) := by
  constructor
  · rfl
  · by_cases h : toolName = "check_doctor_availability" <;>
      simp [handleToolCall, h]

/-- C3: the tool executor always returns a dict and never raises, being a
total function into Dict: a name outside the eight registered tools gives
the unknown-tool error payload, a handler that raises gives an error
payload carrying the message, and a handler that returns normally has its
dict passed through. -/
theorem c3_execute_tool_soft (handler : String → Dict → Except String Dict)
    (tool_name : String) (arguments : Dict) :
    ((registeredToolNames.contains tool_name) = false →
      executeTool handler tool_name arguments
        = [("error", JVal.s ("Unknown tool: " ++ tool_name))])
    ∧ ((registeredToolNames.contains tool_name) = true →
      (∀ d, handler tool_name arguments = .ok d →
          executeTool handler tool_name arguments = d)
      ∧ (∀ e, handler tool_name arguments = .error e →
          executeTool handler tool_name arguments = [("error", JVal.s e)])) := by
  refine ⟨?_, fun h => ⟨?_, ?_⟩⟩
  · intro h
    unfold executeTool
    rw [if_pos h]
  · intro d hd
    unfold executeTool
    rw [if_neg (by rw [h]; simp), hd]
  · intro e he
    unfold executeTool
    rw [if_neg (by rw [h]; simp), he]

/-- C3 witness: the executor facts evaluated at a concrete unknown name
and at a registered tool whose handler raises. -/
theorem c3_execute_tool_soft_witness :
    (registeredToolNames.contains "transfer_funds") = false
    ∧ executeTool (fun _ _ => Except.error "boom") "transfer_funds" []
        = [("error", JVal.s ("Unknown tool: " ++ "transfer_funds"))]
    ∧ executeTool (fun _ _ => Except.error "boom") "get_all_doctors" []
        = [("error", JVal.s "boom")] :=
  ⟨rfl,
   (c3_execute_tool_soft (fun _ _ => Except.error "boom") "transfer_funds" []).1 rfl,
   ((c3_execute_tool_soft (fun _ _ => Except.error "boom") "get_all_doctors" []).2 rfl).2
     "boom" rfl⟩

/-- C2: the tool-call loop ends exactly when a model response carries no
tool calls: a first response with none finishes within one round; tool
calls followed by a clean response finish in exactly two rounds, not one,
with the requested tool names recorded once each in call order; and with
no iteration cap, an oracle that requests tools on every round leaves the
loop unfinished for every amount of fuel, from any intermediate state. -/
theorem c2_loop_rounds :
    (∀ oracle : Nat → ModelResponse, (oracle 0).tool_calls = [] →
        agentLoop oracle 1 0 []
          = some ([], pythonOrStr (oracle 0).content fallbackResponse))
    ∧ (∀ oracle : Nat → ModelResponse,
        (oracle 0).tool_calls ≠ [] → (oracle 1).tool_calls = [] →
        agentLoop oracle 2 0 []
          = some ((oracle 0).tool_calls.map ToolCall.name,
              pythonOrStr (oracle 1).content fallbackResponse)
        ∧ agentLoop oracle 1 0 [] = none)
    ∧ (∀ oracle : Nat → ModelResponse, (∀ k, (oracle k).tool_calls ≠ []) →
        ∀ fuel round acc, agentLoop oracle fuel round acc = none) := by
  refine ⟨?_, ?_, ?_⟩
  · intro oracle h
    simp [agentLoop, h]
  · intro oracle h0 h1
    have h0e : (oracle 0).tool_calls.isEmpty = false := by
      cases hc : (oracle 0).tool_calls with
      | nil => exact absurd hc h0
      | cons a as => rfl
    constructor
    · simp [agentLoop, h0e, h1]
    · simp [agentLoop, h0e]
  · intro oracle h fuel
    induction fuel with
    | zero => intro round acc; rfl
    | succ n ih =>
      intro round acc
      have he : (oracle round).tool_calls.isEmpty = false := by
        cases hc : (oracle round).tool_calls with
        | nil => exact absurd hc (h round)
        | cons a as => rfl
      rw [agentLoop]
      simp only [he, Bool.false_eq_true, if_false]
      exact ih _ _

/-- C2 witness: the three loop facts evaluated at concrete oracles, one
that never asks for tools, one that asks once, and one that always asks. -/
theorem c2_loop_rounds_witness :
    agentLoop oracleNoTools 1 0 []
      = some ([], pythonOrStr (oracleNoTools 0).content fallbackResponse)
    ∧ (agentLoop oracleOneTool 2 0 []
        = some ((oracleOneTool 0).tool_calls.map ToolCall.name,
            pythonOrStr (oracleOneTool 1).content fallbackResponse)
      ∧ agentLoop oracleOneTool 1 0 [] = none)
    ∧ agentLoop oracleAlwaysTools 5 3 ["schedule_appointment"] = none :=
  ⟨(c2_loop_rounds).1 oracleNoTools rfl,
   (c2_loop_rounds).2.1 oracleOneTool (by simp [oracleOneTool]) rfl,
   (c2_loop_rounds).2.2 oracleAlwaysTools (fun k => by simp [oracleAlwaysTools])
     5 3 ["schedule_appointment"]⟩

/-- C4: for the doctor whose Monday pattern is the single window 09:00 to
12:00 with 30-minute consultations and no bookings, availability on Monday
1970-01-05 (day index 4) returns exactly the six slots 09:00 to 11:30 at
30-minute strides; and in general every emitted slot start lies on a
stride of the duration from its window start, fits with the duration
inside the window, and is never an already-booked timestamp. -/
theorem c4_availability_slots :
    checkAvailability dbAvail "smith" 4
      = .ok [("success", JVal.b true),
          ("doctor_name", JVal.s "Alice Smith"),
          ("doctor_id", JVal.s "1"),
          ("specialty", JVal.s "cardiology"),
          ("date", JVal.s "1970-01-05"),
          ("day", JVal.s "Monday"),
          ("available_slots", JVal.arr [JVal.s "09:00 AM", JVal.s "09:30 AM",
            JVal.s "10:00 AM", JVal.s "10:30 AM", JVal.s "11:00 AM", JVal.s "11:30 AM"]),
          ("consultation_duration", JVal.n 30),
          ("message", JVal.s "Dr. Alice Smith has 6 available slots on January 05, 1970")]
    ∧ genSlots 30 [] (4 * 1440 + 540) (4 * 1440 + 720)
        = [6300, 6330, 6360, 6390, 6420, 6450]
    ∧ (∀ (dur : Nat) (booked : List Nat) (wstart wend t : Nat),
        t ∈ genSlots dur booked wstart wend →
        (∃ k, t = wstart + k * dur) ∧ t + dur ≤ wend ∧ t ∉ booked) := by
  refine ⟨rfl, rfl, ?_⟩
  intro dur booked wstart wend t ht
  exact genSlotsAux_sound dur booked (wend + 1) wstart wend t ht

/-- C4 witness: the general slot facts evaluated at the second emitted
slot of the concrete window. -/
theorem c4_availability_slots_witness :
    (∃ k, 6330 = 6300 + k * 30) ∧ 6330 + 30 ≤ 6480 ∧ 6330 ∉ ([] : List Nat) :=
  (c4_availability_slots).2.2 30 [] 6300 6480 6330 (by decide)

/-- C5: when more than ten turns are stored, the assembled message list is
exactly the role-selected system instruction, then the most recent ten
stored turns in original order reduced to role and content, then the new
user message, twelve messages in total; the stored list itself is left
untouched by assembly, which only reads it. -/
theorem c5_history_window (dumps : Dict → String) (nowStr : String)
    (stored : List StoredTurn) (user_message user_role : String) (ctx : Option Dict)
    (h : stored.length > 10) :
    buildMessages dumps nowStr stored user_message user_role ctx
      = ChatMessage.mk "system" (getSystemPrompt dumps nowStr user_role ctx)
        :: ((stored.drop (stored.length - 10)).map
              (fun m => ChatMessage.mk m.role m.content)
          ++ [ChatMessage.mk "user" user_message])
    ∧ (stored.drop (stored.length - 10)).length = 10
    ∧ (buildMessages dumps nowStr stored user_message user_role ctx).length = 12 := by
  refine ⟨rfl, ?_, ?_⟩
  · rw [List.length_drop]
    omega
  · simp [buildMessages]
    omega

/-- C5 witness: the windowing facts evaluated on fifteen stored turns. -/
theorem c5_history_window_witness :
    fifteenTurns.length > 10
    ∧ (fifteenTurns.drop (fifteenTurns.length - 10)).length = 10
    ∧ (buildMessages (fun _ => "serialized") "now" fifteenTurns "hello" "patient" none).length
        = 12 :=
  ⟨by simp [fifteenTurns],
   (c5_history_window (fun _ => "serialized") "now" fifteenTurns "hello" "patient" none
     (by simp [fifteenTurns])).2.1,
   (c5_history_window (fun _ => "serialized") "now" fifteenTurns "hello" "patient" none
     (by simp [fifteenTurns])).2.2⟩

/-- C6: for a doctor-role call to one of the three doctor-scoped tools
with a doctor_id in context, the executed arguments receive that doctor_id
exactly when the model omitted it, and an explicitly supplied doctor_id is
never overwritten. -/
theorem c6_doctor_id_injection (toolName : String) (ht : toolName ∈ doctorScopedTools)
    (context : Dict) (dval : JVal) (hD : dget context "doctor_id" = some dval)
    (userEmail : Option String) (rawParsed : Option Dict) :
    (dget (rawParsed.getD []) "doctor_id" = none →
      dget (executedArguments "doctor" userEmail context toolName rawParsed) "doctor_id"
        = some dval)
    ∧ (∀ v, dget (rawParsed.getD []) "doctor_id" = some v →
      dget (executedArguments "doctor" userEmail context toolName rawParsed) "doctor_id"
        = some v) := by
  have hhas : dhas context "doctor_id" = true := by simp [dhas, hD]
  fin_cases ht <;>
    refine ⟨fun hnone => ?_, fun v hv => ?_⟩ <;>
    simp only [executedArguments, injectDoctorId, injectPatientEmail, injectDoctorName] <;>
    simp_all [dhas, dget_dset_self, hD]
  all_goals rw [if_pos (by decide), dget_dset_self]

/-- C6 witness: the injection facts evaluated at a concrete context and at
concrete argument dicts, one without and one with an explicit doctor_id. -/
theorem c6_doctor_id_injection_witness :
    dget (executedArguments "doctor" none [("doctor_id", JVal.s "D7")]
        "get_patient_statistics" (some [])) "doctor_id" = some (JVal.s "D7")
    ∧ dget (executedArguments "doctor" none [("doctor_id", JVal.s "D7")]
        "get_patient_statistics" (some [("doctor_id", JVal.s "D9")])) "doctor_id"
      = some (JVal.s "D9") :=
  ⟨(c6_doctor_id_injection "get_patient_statistics" (by decide)
      [("doctor_id", JVal.s "D7")] (JVal.s "D7") rfl none (some [])).1 rfl,
   (c6_doctor_id_injection "get_patient_statistics" (by decide)
      [("doctor_id", JVal.s "D7")] (JVal.s "D7") rfl none
      (some [("doctor_id", JVal.s "D9")])).2 (JVal.s "D9") rfl⟩

/-- C7 amended: the availability check is the only tool whose execution
updates the loop context, and only when its result is truthy both on
success and on doctor_id; the keys written are last_doctor_id,
last_doctor_name, last_date and available_slots, the last taken from the
available_slots field of the result with an empty-list default; every
other tool call, and every availability result failing the two truthiness
tests, leaves the context exactly as it was. -/
theorem c7_context_capture_amended (handler : String → Dict → Except String Dict)
    (userRole : String) (userEmail : Option String) (context : Dict)
    (toolName : String) (rawParsed : Option Dict) (result : Dict) :
    (toolName ≠ "check_doctor_availability" →
      (handleToolCall handler userRole userEmail context toolName rawParsed).2 = context)
    ∧ ((handleToolCall handler userRole userEmail context
          "check_doctor_availability" rawParsed).2
        = captureAvailabilityContext context
            (executeTool handler "check_doctor_availability"
              (executedArguments userRole userEmail context
                "check_doctor_availability" rawParsed)))
    ∧ (truthyOpt (dget result "success") = true →
       truthyOpt (dget result "doctor_id") = true →
      dget (captureAvailabilityContext context result) "last_doctor_id"
        = some ((dget result "doctor_id").getD JVal.null)
      ∧ dget (captureAvailabilityContext context result) "last_doctor_name"
        = some ((dget result "doctor_name").getD JVal.null)
      ∧ dget (captureAvailabilityContext context result) "last_date"
        = some ((dget result "date").getD JVal.null)
      ∧ dget (captureAvailabilityContext context result) "available_slots"
        = some ((dget result "available_slots").getD (JVal.arr [])))
    ∧ ((truthyOpt (dget result "success") && truthyOpt (dget result "doctor_id")) = false →
      captureAvailabilityContext context result = context) := by
  refine ⟨?_, rfl, ?_, ?_⟩
  · intro h
    simp [handleToolCall, h]
  · intro h1 h2
    have hc : (truthyOpt (dget result "success")
        && truthyOpt (dget result "doctor_id")) = true := by
      rw [h1, h2]; rfl
    unfold captureAvailabilityContext
    rw [if_pos hc]
    refine ⟨?_, ?_, ?_, ?_⟩
    · rw [dget_dset_other _ _ _ _ (by decide), dget_dset_other _ _ _ _ (by decide),
        dget_dset_other _ _ _ _ (by decide), dget_dset_self]
    · rw [dget_dset_other _ _ _ _ (by decide), dget_dset_other _ _ _ _ (by decide),
        dget_dset_self]
    · rw [dget_dset_other _ _ _ _ (by decide), dget_dset_self]
    · rw [dget_dset_self]
  · intro h
    unfold captureAvailabilityContext
    rw [if_neg (by rw [h]; simp)]

/-- C7 amended witness: the capture facts evaluated at a concrete
successful availability result and at a non-availability tool call. -/
theorem c7_context_capture_amended_witness :
    dget (captureAvailabilityContext [] availResultCapture) "last_doctor_id"
      = some ((dget availResultCapture "doctor_id").getD JVal.null)
    ∧ (handleToolCall (fun _ _ => Except.ok []) "patient" none []
        "schedule_appointment" none).2 = [] :=
  ⟨((c7_context_capture_amended (fun _ _ => Except.ok []) "patient" none []
      "schedule_appointment" none availResultCapture).2.2.1 rfl rfl).1,
   (c7_context_capture_amended (fun _ _ => Except.ok []) "patient" none []
      "schedule_appointment" none availResultCapture).1 (by decide)⟩

/-- C1 amended: conflict detection in schedule_appointment considers the
status scheduled only.  With the doctor, user and patient lookups each
resolving to a single row, a single existing appointment of that doctor at
the exact requested timestamp with status scheduled makes the tool return
the soft failure and leave the database untouched, while the absence of
any such scheduled appointment, even when a rescheduled one holds the
timestamp, makes it append one new appointment with status scheduled at
the requested time. -/
theorem c1_schedule_conflict_amended (db : DB) (dn pe : String) (t : Nat)
    (sym : String) (nid : Nat) (cal : Except String String) (em : Except String Bool)
    (doctor : Doctor) (hd : scalarOneOrNone (doctorsMatching db dn) = .ok (some doctor))
    (u : UserRow) (hu : scalarOneOrNone (patientUsersByEmail db pe) = .ok (some u))
    (p : PatientRow) (hp : scalarOneOrNone (patientsForUser db u.id) = .ok (some p)) :
    ((∃ a, conflictQuery db doctor.id t = [a]) →
      (scheduleAppointment db dn pe t sym nid cal em).1
        = .ok [("success", JVal.b false),
            ("message", JVal.s ("Sorry, the " ++ fmtTime12 (t % 1440) ++
              " slot is no longer available. Please choose another time."))]
      ∧ (scheduleAppointment db dn pe t sym nid cal em).2 = db)
    ∧ (conflictQuery db doctor.id t = [] →
      dget (okDict (scheduleAppointment db dn pe t sym nid cal em).1) "success"
        = some (JVal.b true)
      ∧ ∃ ap, (scheduleAppointment db dn pe t sym nid cal em).2.appointments
            = db.appointments ++ [ap]
          ∧ ap.status = AppointmentStatus.scheduled
          ∧ ap.scheduled_time = t
          ∧ ap.doctor_id = doctor.id
          ∧ ap.patient_id = p.id) := by
  constructor
  · rintro ⟨a, ha⟩
    unfold scheduleAppointment
    rw [hd]; dsimp only
    rw [hu]; dsimp only
    rw [hp]; dsimp only
    rw [ha]
    exact ⟨rfl, rfl⟩
  · intro h0
    unfold scheduleAppointment
    rw [hd]; dsimp only
    rw [hu]; dsimp only
    rw [hp]; dsimp only
    rw [h0]
    exact ⟨rfl, ⟨_, rfl, rfl, rfl, rfl, rfl⟩⟩

/-- C1 amended witness: the conflict facts evaluated on a database whose
09:00 slot is held by a scheduled appointment. -/
theorem c1_schedule_conflict_amended_witness :
    (scheduleAppointment dbResched "Smith" "pat@example.com" 6300 "flu" 99
        (Except.ok "cal-1") (Except.ok true)).1
      = .ok [("success", JVal.b false),
          ("message", JVal.s ("Sorry, the " ++ fmtTime12 (6300 % 1440) ++
            " slot is no longer available. Please choose another time."))]
    ∧ (scheduleAppointment dbResched "Smith" "pat@example.com" 6300 "flu" 99
        (Except.ok "cal-1") (Except.ok true)).2 = dbResched :=
  (c1_schedule_conflict_amended dbResched "Smith" "pat@example.com" 6300 "flu" 99
    (Except.ok "cal-1") (Except.ok true) docSmith rfl userPat rfl patPat rfl).1
    ⟨apptToMove, rfl⟩

/-- C10 amended: clear_conversation returns false exactly when no row
exists for the pair, and returns true deactivating the row when exactly
one row exists, active or not; repeating the call on the updated state
returns true again and leaves the state unchanged.  With several rows for
the pair the underlying single-row query raises instead. -/
theorem c10_clear_conversation_amended (rows : List ConversationRow)
    (uid : Nat) (sid : String) :
    (conversationQuery rows uid sid = [] →
      clearConversation rows uid sid = .ok (false, rows))
    ∧ (∀ r, conversationQuery rows uid sid = [r] →
      clearConversation rows uid sid = .ok (true, rows.map (deactivateRow uid sid))
      ∧ clearConversation (rows.map (deactivateRow uid sid)) uid sid
          = .ok (true, rows.map (deactivateRow uid sid))) := by
  constructor
  · intro h
    simp [clearConversation, h, scalarOneOrNone]
  · intro r h
    have h1 : clearConversation rows uid sid
        = .ok (true, rows.map (deactivateRow uid sid)) := by
      simp [clearConversation, h, scalarOneOrNone]
    refine ⟨h1, ?_⟩
    have hq : conversationQuery (rows.map (deactivateRow uid sid)) uid sid
        = [deactivateRow uid sid r] := by
      rw [conversationQuery_map_deactivate, h]
      rfl
    simp [clearConversation, hq, scalarOneOrNone, map_deactivate_idem, deactivateRow_idem]

/-- C10 amended witness: the clearing facts evaluated on a single active
row and on the empty table. -/
theorem c10_clear_conversation_amended_witness :
    clearConversation convRowSingle 1 "s1"
      = .ok (true, convRowSingle.map (deactivateRow 1 "s1"))
    ∧ clearConversation (convRowSingle.map (deactivateRow 1 "s1")) 1 "s1"
      = .ok (true, convRowSingle.map (deactivateRow 1 "s1"))
    ∧ clearConversation [] 1 "s1" = .ok (false, []) :=
  ⟨((c10_clear_conversation_amended convRowSingle 1 "s1").2
      { user_id := 1, session_id := "s1", is_active := true } rfl).1,
   ((c10_clear_conversation_amended convRowSingle 1 "s1").2
      { user_id := 1, session_id := "s1", is_active := true } rfl).2,
   (c10_clear_conversation_amended [] 1 "s1").1 rfl⟩

end MedAssist
